import Mathlib

/-!
Shallow embedding of `src/handlers.ts` of louissasha/serverless-rest-api:
a serverless CRUD API for products backed by a DynamoDB table keyed by
`productID`, validated with a yup schema.

Modelling conventions, each noted again at the definition it concerns:
* JSON values carried in request payloads are modelled by `Jval`
  (string / number / boolean / null / anything else); numbers are modelled
  as integers since the handlers never compute with them.
* The DynamoDB table is modelled as a list of items, looked up by the
  `productID` attribute; `put` overwrites the item with the same key,
  `delete` filters it out, `scan` returns the whole list.  Store calls
  are modelled as always reaching the store (no network failures).
* A handler invocation is a function from an event and a store to a pair
  of an `Except` (an uncaught JavaScript exception, or a returned
  response) and the resulting store.
* `JSON.parse` is modelled abstractly: a raw request body either parses
  to a payload object or fails with a `SyntaxError` message (`RawBody`).
* yup's `schema.validate(..., { abortEarly: false })` is modelled by
  `validationErrors`, collecting one message per failing field, following
  yup's documented cast-then-validate semantics for the schema declared
  at lines 24-29 of the source.
-/

/-- A JSON value as carried in a decoded request payload.  Numeric
literals are modelled as integers (the handlers never do arithmetic on
them); `other` stands for arrays and nested objects. -/
inductive Jval : Type where
  | str (s : String)
  | num (n : Int)
  | bool (b : Bool)
  | null
  | other
deriving DecidableEq

/-- A decoded request body, as the object `JSON.parse` produces: each of
the five product fields is present (`some`) or absent (`none`).  Unknown
extra fields are irrelevant to every handler and are not modelled. -/
structure Payload : Type where
  productID : Option Jval := none
  name : Option Jval := none
  description : Option Jval := none
  price : Option Jval := none
  available : Option Jval := none
deriving DecidableEq

/-- A stored DynamoDB item: the record the create/update handlers build
by spreading the raw request payload.  `productID` is always present
(both handlers set it); the other attributes are whatever the raw
payload supplied, possibly absent. -/
structure Item : Type where
  productID : Jval
  name : Option Jval := none
  description : Option Jval := none
  price : Option Jval := none
  available : Option Jval := none
deriving DecidableEq

/-- The DynamoDB table `ProductsTableServerless`, modelled as the list of
its items, keyed by the `productID` attribute. -/
abbrev Store : Type := List Item

/-- `docClient.get({ Key: { productID: key } })`: the item whose
`productID` attribute equals the key, if any. -/
def lookupStore (store : Store) (key : Jval) : Option Item :=
  List.find? (fun it => it.productID == key) store

/-- `docClient.put({ Item: item })`: insert or fully overwrite the item
at its `productID` key. -/
def putStore (item : Item) (store : Store) : Store :=
  item :: List.filter (fun x => !(x.productID == item.productID)) store

/-- `docClient.delete({ Key: { productID: key } })`: remove the item at
the key; no error if absent. -/
def deleteStore (key : Jval) (store : Store) : Store :=
  List.filter (fun x => !(x.productID == key)) store

/-- A raw HTTP request body: either a string that `JSON.parse` decodes to
a payload object, or one on which `JSON.parse` throws a `SyntaxError`
with the given message.  (An absent body, `JSON.parse(undefined)`, is a
`malformed` case.) -/
inductive RawBody : Type where
  | parsable (p : Payload)
  | malformed (msg : String)
deriving DecidableEq

/-- `JSON.parse(event.body as string)`. -/
def jsonParse : RawBody → Except String Payload
  | .parsable p => .ok p
  | .malformed msg => .error msg

/-- An API Gateway proxy event as the handlers read it: the `id` path
parameter (`event.pathParameters?.id`) and the raw body. -/
structure Event : Type where
  pathParamId : Option String := none
  body : RawBody := .malformed "Unexpected end of JSON input"
deriving DecidableEq

/-- yup's message for a missing/null/empty required field. -/
def requiredMsg (field : String) : String :=
  field ++ " is a required field"

/-- yup's message for a value the field's type cannot cast. -/
def typeMsg (field : String) (ty : String) : String :=
  field ++ " must be a `" ++ ty ++ "` type"

/-- Whether yup's number cast (`parseFloat`-like) accepts a string:
modelled as an optional leading minus sign, then decimal digits with at
most one decimal point (scientific notation and whitespace trimming are
not modelled; no claim depends on them). -/
def numericLiteral (s : String) : Bool :=
  let t := if String.startsWith s "-" then String.drop s 1 else s
  t ≠ "" && String.any t Char.isDigit
    && String.all t (fun c => Char.isDigit c || c == '.')
    && (List.filter (fun c => c == '.') (String.toList t)).length ≤ 1

/-- `yup.string().required()` on one field, after yup's cast: strings,
numbers and booleans coerce to a string; missing, `null` and the empty
string fail `required`; arrays/objects fail the type check. -/
def checkString (field : String) : Option Jval → Option String
  | none => some (requiredMsg field)
  | some .null => some (requiredMsg field)
  | some (.str "") => some (requiredMsg field)
  | some (.str _) => none
  | some (.num _) => none
  | some (.bool _) => none
  | some .other => some (typeMsg field "string")

/-- `yup.number().required()` on one field: numbers pass; numeric strings
cast; everything else fails the type check; missing/`null` fail
`required`. -/
def checkNumber (field : String) : Option Jval → Option String
  | none => some (requiredMsg field)
  | some .null => some (requiredMsg field)
  | some (.num _) => none
  | some (.str s) => if numericLiteral s then none else some (typeMsg field "number")
  | some (.bool _) => some (typeMsg field "number")
  | some .other => some (typeMsg field "number")

/-- `yup.bool().required()` on one field: booleans pass; the strings
`"true"`/`"false"` cast; everything else fails the type check;
missing/`null` fail `required`. -/
def checkBoolean (field : String) : Option Jval → Option String
  | none => some (requiredMsg field)
  | some .null => some (requiredMsg field)
  | some (.bool _) => none
  | some (.str "true") => none
  | some (.str "false") => none
  | some (.str _) => some (typeMsg field "boolean")
  | some (.num _) => some (typeMsg field "boolean")
  | some .other => some (typeMsg field "boolean")

/-- `schema.validate(reqBody, { abortEarly: false })` for the yup schema
of source lines 24-29: the aggregated list of field errors, one entry per
failing field, in field-declaration order.  Validation succeeds exactly
when this list is empty; otherwise yup rejects with a `ValidationError`
carrying this list as `e.errors`. -/
def validationErrors (p : Payload) : List String :=
  Option.toList (checkString "name" p.name)
    ++ Option.toList (checkString "description" p.description)
    ++ Option.toList (checkNumber "price" p.price)
    ++ Option.toList (checkBoolean "available" p.available)

/-- The serialized JSON body of a handler response, by shape:
* `errObj msg` — `JSON.stringify({ error: msg })` (the `SyntaxError`
  branch of `handleError`, and an `HttpError`'s own stringified body);
* `errsObj msgs` — `JSON.stringify({ errors: msgs })`;
* `itemObj it` — `JSON.stringify(product)` for a defined product;
* `undef` — `JSON.stringify(undefined)`, which is no string at all (the
  read handler's body when its fetch failed);
* `deleteObj it?` — `JSON.stringify({ result: "delete completed",
  product: it? })`; an undefined product is omitted by `stringify`;
* `scanObj items count` — `JSON.stringify(output)` of a DynamoDB scan
  output (`Items` plus `Count`). -/
inductive RespBody : Type where
  | errObj (msg : String)
  | errsObj (msgs : List String)
  | itemObj (it : Item)
  | undef
  | deleteObj (it : Option Item)
  | scanObj (items : List Item) (count : Nat)
deriving DecidableEq

/-- An `APIGatewayProxyResult`: status code, the optional `headers`
field, and the body.  `headers = none` models a result object built
without a `headers` property. -/
structure Response : Type where
  statusCode : Nat
  headers : Option (List (String × String)) := none
  body : RespBody
deriving DecidableEq

/-- The module-level `headers` constant of the source. -/
def appHeaders : List (String × String) := [("content-type", "application/json")]

/-- An exception `handleError` recognizes: yup's `ValidationError`
(carrying the aggregated error list), `JSON.parse`'s `SyntaxError`
(carrying its message), or the source's `HttpError` (status code plus
the stringified `{ error: msg }` body; the only one ever constructed is
`HttpError(404, { error: "not found" })`). -/
inductive JsThrown : Type where
  | validationErr (errs : List String)
  | syntaxErr (msg : String)
  | httpErr (status : Nat) (msg : String)
deriving DecidableEq

/-- An exception no handler catches.  The only one arising in the model
is the `TypeError` thrown by reading `.productID` off `undefined` in the
update handler.  (`handleError` rethrows unrecognized errors, but every
error the modelled store layer raises is an `HttpError`, so the rethrow
branch is unreachable here.) -/
inductive JsErr : Type where
  | typeError
deriving DecidableEq

/-- The result of one handler invocation: either an uncaught exception or
a returned response, together with the store it leaves behind. -/
abbrev HandlerResult : Type := Except JsErr Response × Store

/-- `handleError` (source lines 38-65): classify a recognized exception
into a response.  `ValidationError` → 400 `{errors}`; `SyntaxError` →
400 `{error: "Invalid request body fomrat: \"<message>\""}` (the typo
`fomrat` and the quotes around the message are the source's);
`HttpError` → its own status and stringified body. -/
def handleError : JsThrown → Response
  | .validationErr errs =>
      { statusCode := 400, headers := some appHeaders, body := .errsObj errs }
  | .syntaxErr msg =>
      { statusCode := 400, headers := some appHeaders
        body := .errObj ("Invalid request body fomrat: \"" ++ msg ++ "\"") }
  | .httpErr status msg =>
      { statusCode := status, headers := some appHeaders, body := .errObj msg }

/-- `fetchProductById` (source lines 76-93): get by key; throw
`HttpError(404, { error: "not found" })` when no item comes back.  An
absent path parameter would make the AWS SDK reject the get; the claims
only concern present parameters, and the model folds the absent-id case
into the not-found branch. -/
def fetchProductById (store : Store) (oid : Option String) : Except JsThrown Item :=
  match oid with
  | none => .error (.httpErr 404 "not found")
  | some id =>
    match lookupStore store (.str id) with
    | some item => .ok item
    | none => .error (.httpErr 404 "not found")

/-- The object literal `{ productID: v4(), ...reqBody }` of source lines
107-110: the spread comes SECOND, so whenever the payload carries a
`productID` key its value overwrites the freshly generated `v4()` one.
`gen` is the `v4()` output of the invocation. -/
def createdProduct (gen : String) (reqBody : Payload) : Item :=
  { productID := Option.getD reqBody.productID (.str gen)
    name := reqBody.name
    description := reqBody.description
    price := reqBody.price
    available := reqBody.available }

/-- `createProduct` (source lines 95-129): parse the body, validate it
(awaited, `abortEarly: false`), build `{ productID: v4(), ...reqBody }`,
put it, and respond 201 with the product.  Parse and validation failures
are caught and classified by `handleError`, whose response is returned.
`gen` is the `v4()` output of this invocation. -/
def createProduct (gen : String) (ev : Event) (store : Store) : HandlerResult :=
  match jsonParse ev.body with
  | .error msg => (.ok (handleError (.syntaxErr msg)), store)
  | .ok reqBody =>
    let errs := validationErrors reqBody
    if errs = [] then
      let product : Item := createdProduct gen reqBody
      (.ok { statusCode := 201, headers := some appHeaders, body := .itemObj product },
       putStore product store)
    else
      (.ok (handleError (.validationErr errs)), store)

/-- `getProduct` (source lines 131-153): fetch by the path parameter.  On
a thrown `HttpError` the catch block calls `handleError(err)` but
discards its return value, so the handler falls through and still
returns 200 with `JSON.stringify(product)` where `product` is
`undefined`. -/
def getProduct (ev : Event) (store : Store) : HandlerResult :=
  match fetchProductById store ev.pathParamId with
  | .ok product =>
      (.ok { statusCode := 200, headers := some appHeaders, body := .itemObj product }, store)
  | .error _ =>
      (.ok { statusCode := 200, headers := some appHeaders, body := .undef }, store)

/-- The object literal `{ ...reqBody, productID: outputProduct.productID }`
of source lines 187-190: payload fields spread first, then `productID`
set from the fetched record, so the original key always wins; spreading
an undefined `reqBody` contributes nothing. -/
def replacementProduct (reqBody : Option Payload) (outputProduct : Item) : Item :=
  { productID := outputProduct.productID
    name := Option.bind reqBody Payload.name
    description := Option.bind reqBody Payload.description
    price := Option.bind reqBody Payload.price
    available := Option.bind reqBody Payload.available }

/-- `updateProduct` (source lines 155-207): parse the body (a
`SyntaxError` is caught, classified, and the classification discarded,
leaving `reqBody` undefined); call `schema.validate` WITHOUT `await`, so
a validation failure never alters control flow; fetch the existing
record (on a thrown `HttpError` the classification is again discarded,
leaving `outputProduct` undefined, and the subsequent
`outputProduct.productID` read throws an uncaught `TypeError`); build
the `replacementProduct`, put it, and respond 201 with it. -/
def updateProduct (ev : Event) (store : Store) : HandlerResult :=
  let reqBody : Option Payload := Except.toOption (jsonParse ev.body)
  match fetchProductById store ev.pathParamId with
  | .error _ => (.error .typeError, store)
  | .ok outputProduct =>
    let product : Item := replacementProduct reqBody outputProduct
    (.ok { statusCode := 201, headers := some appHeaders, body := .itemObj product },
     putStore product store)

/-- `deleteProduct` (source lines 209-240): fetch the record (on a thrown
`HttpError` the classification is discarded and the delete is skipped),
delete it when found, then unconditionally return the final result
object — statusCode 204, NO `headers` property, and body
`JSON.stringify({ result: "delete completed", product: productToDelete })`
with `product` omitted by `stringify` when the fetch failed. -/
def deleteProduct (ev : Event) (store : Store) : HandlerResult :=
  match fetchProductById store ev.pathParamId with
  | .ok productToDelete =>
      (.ok { statusCode := 204, headers := none, body := .deleteObj (some productToDelete) },
       deleteStore productToDelete.productID store)
  | .error _ =>
      (.ok { statusCode := 204, headers := none, body := .deleteObj none }, store)

/-- `listProduct` (source lines 242-255): scan the table and respond 200
with the stringified scan output (its `Items` and `Count`). -/
def listProduct (_ev : Event) (store : Store) : HandlerResult :=
  (.ok { statusCode := 200, headers := some appHeaders
         body := .scanObj store store.length }, store)

/-- Projection used to state header properties uniformly: `none` when the
handler threw, otherwise the returned response's optional `headers`
field. -/
def okHeaders (x : HandlerResult) : Option (Option (List (String × String))) :=
  match x.1 with
  | .ok r => some r.headers
  | .error _ => none

/-- Concrete sample payload: the spec §8 example with an integer price. -/
def penPayload : Payload :=
  { name := some (.str "Pen"), description := some (.str "Blue pen")
    price := some (.num 2), available := some (.bool true) }

/-- The sample payload with a caller-supplied `productID` of `"X"`. -/
def penPayloadWithId : Payload := { penPayload with productID := some (.str "X") }

/-- A sample record as stored at key `"p1"`. -/
def storedPen : Item :=
  { productID := .str "p1", name := some (.str "Pen"), description := some (.str "Blue pen")
    price := some (.num 2), available := some (.bool true) }

/-- C1: the claim states that a read of an id absent from the store
returns 404 with body `{"error":"not found"}` and never a 200.  The code
does the opposite: the catch block discards `handleError`'s classified
404 response, and the handler falls through to return 200 with
`JSON.stringify(undefined)` as its body.  This theorem evaluates the
read handler on every such request and shows the 200/undefined result
(the store is left unchanged). -/
theorem getProduct_nonexistent_returns_200_undefined
    (ev : Event) (store : Store) (id : String)
    (hid : ev.pathParamId = some id)
    (habsent : lookupStore store (.str id) = none) :
    getProduct ev store =
      (.ok { statusCode := 200, headers := some appHeaders, body := .undef }, store) := by
  simp [getProduct, fetchProductById, hid, habsent]

/-- C1 witness: reading id `"ghost"` against a store holding only the
record at `"p1"` yields 200 with an undefined body. -/
theorem getProduct_nonexistent_witness :
    getProduct { pathParamId := some "ghost", body := .malformed "x" } [storedPen] =
      (.ok { statusCode := 200, headers := some appHeaders, body := .undef }, [storedPen]) :=
  getProduct_nonexistent_returns_200_undefined _ _ "ghost" rfl (by decide)

/-- C2: the claim states that an update of an id absent from the store
returns 404 and leaves the store unchanged.  The store is indeed left
unchanged (the put is never reached), but no 404 is returned: the catch
block discards `handleError`'s classification, `outputProduct` stays
undefined, and reading `.productID` off it throws an uncaught
`TypeError`, so the handler produces no response at all. -/
theorem updateProduct_nonexistent_throws_typeError
    (ev : Event) (store : Store) (id : String)
    (hid : ev.pathParamId = some id)
    (habsent : lookupStore store (.str id) = none) :
    updateProduct ev store = (.error .typeError, store) := by
  simp [updateProduct, fetchProductById, hid, habsent]

/-- C2 witness: updating id `"ghost"` with a well-formed payload against
a store holding only the record at `"p1"` throws and changes nothing. -/
theorem updateProduct_nonexistent_witness :
    updateProduct { pathParamId := some "ghost", body := .parsable penPayload } [storedPen] =
      (.error .typeError, [storedPen]) :=
  updateProduct_nonexistent_throws_typeError _ _ "ghost" rfl (by decide)

/-- C3: the claim states that an update whose body fails schema
validation returns 400 and performs no put.  The code calls
`schema.validate` without `await`, so the rejection never alters control
flow: for an existing id the handler persists the replacement built from
the invalid payload and responds 201. -/
theorem updateProduct_invalid_body_persists_201
    (ev : Event) (store : Store) (id : String) (item : Item) (p : Payload)
    (hid : ev.pathParamId = some id)
    (hfound : lookupStore store (.str id) = some item)
    (hparse : jsonParse ev.body = .ok p)
    (hinvalid : validationErrors p ≠ []) :
    updateProduct ev store =
      (.ok { statusCode := 201, headers := some appHeaders,
             body := .itemObj (replacementProduct (some p) item) },
       putStore (replacementProduct (some p) item) store) := by
  simp [updateProduct, fetchProductById, hid, hfound, hparse, Except.toOption]

/-- C3 witness: updating existing id `"p1"` with the empty payload —
which fails validation on all four fields — still persists and returns
201. -/
theorem updateProduct_invalid_body_witness :
    validationErrors ({} : Payload) ≠ [] ∧
    updateProduct { pathParamId := some "p1", body := .parsable ({} : Payload) } [storedPen] =
      (.ok { statusCode := 201, headers := some appHeaders,
             body := .itemObj (replacementProduct (some ({} : Payload)) storedPen) },
       putStore (replacementProduct (some ({} : Payload)) storedPen) [storedPen]) :=
  ⟨by decide,
   updateProduct_invalid_body_persists_201 _ _ "p1" storedPen {} rfl (by decide) rfl (by decide)⟩

/-- C9: the claim states that a delete of an id absent from the store
returns 404, not a success response.  The code discards `handleError`'s
classified 404 in the catch block and unconditionally executes the final
return, producing 204 with body
`{"result":"delete completed"}` (the `product` property is undefined and
dropped by `JSON.stringify`); the store is left unchanged. -/
theorem deleteProduct_nonexistent_returns_204
    (ev : Event) (store : Store) (id : String)
    (hid : ev.pathParamId = some id)
    (habsent : lookupStore store (.str id) = none) :
    deleteProduct ev store =
      (.ok { statusCode := 204, headers := none, body := .deleteObj none }, store) := by
  simp [deleteProduct, fetchProductById, hid, habsent]

/-- C9 witness: deleting id `"ghost"` against a store holding only the
record at `"p1"` answers 204 "delete completed". -/
theorem deleteProduct_nonexistent_witness :
    deleteProduct { pathParamId := some "ghost", body := .malformed "x" } [storedPen] =
      (.ok { statusCode := 204, headers := none, body := .deleteObj none }, [storedPen]) :=
  deleteProduct_nonexistent_returns_204 _ _ "ghost" rfl (by decide)

/-- C4 counterexample: in `{ productID: v4(), ...reqBody }` the spread
comes second, so a create whose payload carries `productID: "X"` stores
and returns `"X"`, not the freshly generated id, and nothing at all is
stored under the generated key. -/
theorem createProduct_payload_productID_overrides :
    createProduct "generated" { pathParamId := none, body := .parsable penPayloadWithId } [] =
      (.ok { statusCode := 201, headers := some appHeaders,
             body := .itemObj (createdProduct "generated" penPayloadWithId) },
       [createdProduct "generated" penPayloadWithId])
    ∧ (createdProduct "generated" penPayloadWithId).productID = .str "X"
    ∧ Jval.str "X" ≠ Jval.str "generated"
    ∧ lookupStore [createdProduct "generated" penPayloadWithId] (.str "generated") = none :=
  ⟨rfl, rfl, by decide, by decide⟩

/-- C4 (amended): for every create request with a parseable, valid
payload, the handler responds 201 with the record it persists, the
record is stored at its own `productID` key, and that `productID` is the
freshly generated identifier only when the payload supplies none — a
caller-supplied `productID` overrides the generated one. -/
theorem createProduct_productID_amended
    (gen : String) (ev : Event) (store : Store) (p : Payload)
    (hparse : jsonParse ev.body = .ok p)
    (hvalid : validationErrors p = []) :
    createProduct gen ev store =
      (.ok { statusCode := 201, headers := some appHeaders,
             body := .itemObj (createdProduct gen p) },
       putStore (createdProduct gen p) store)
    ∧ (createdProduct gen p).productID = Option.getD p.productID (.str gen)
    ∧ lookupStore (putStore (createdProduct gen p) store) ((createdProduct gen p).productID)
        = some (createdProduct gen p) := by
  refine ⟨?_, rfl, ?_⟩
  · simp [createProduct, hparse, hvalid]
  · simp [lookupStore, putStore, List.find?]

/-- C4 witness: a create with the valid id-free sample payload and
generated id `"G"` stores the record under `"G"`. -/
theorem createProduct_productID_amended_witness :
    createProduct "G" { pathParamId := none, body := .parsable penPayload } [] =
      (.ok { statusCode := 201, headers := some appHeaders,
             body := .itemObj (createdProduct "G" penPayload) },
       putStore (createdProduct "G" penPayload) [])
    ∧ (createdProduct "G" penPayload).productID = Option.getD penPayload.productID (.str "G")
    ∧ lookupStore (putStore (createdProduct "G" penPayload) []) ((createdProduct "G" penPayload).productID)
        = some (createdProduct "G" penPayload) :=
  createProduct_productID_amended "G" _ [] penPayload rfl (by decide)

/-- C5: for every update request on an existing id, the replacement
record both persisted and returned carries the fetched record's original
`productID` (set after the payload spread, so it wins even when the
payload carries a different one), and the store afterwards holds the
replacement at that original key. -/
theorem updateProduct_preserves_productID
    (ev : Event) (store : Store) (id : String) (item : Item)
    (hid : ev.pathParamId = some id)
    (hfound : lookupStore store (.str id) = some item) :
    updateProduct ev store =
      (.ok { statusCode := 201, headers := some appHeaders,
             body := .itemObj (replacementProduct (Except.toOption (jsonParse ev.body)) item) },
       putStore (replacementProduct (Except.toOption (jsonParse ev.body)) item) store)
    ∧ (replacementProduct (Except.toOption (jsonParse ev.body)) item).productID = item.productID
    ∧ lookupStore (putStore (replacementProduct (Except.toOption (jsonParse ev.body)) item) store)
        item.productID
        = some (replacementProduct (Except.toOption (jsonParse ev.body)) item) := by
  refine ⟨?_, rfl, ?_⟩
  · simp [updateProduct, fetchProductById, hid, hfound]
  · simp [lookupStore, putStore, List.find?, replacementProduct]

/-- C5 witness: updating existing id `"p1"` with a payload whose
`productID` is the different value `"X"` still persists and returns the
record keyed `"p1"`. -/
theorem updateProduct_preserves_productID_witness :
    penPayloadWithId.productID = some (Jval.str "X")
    ∧ Jval.str "X" ≠ storedPen.productID
    ∧ updateProduct { pathParamId := some "p1", body := .parsable penPayloadWithId } [storedPen] =
        (.ok { statusCode := 201, headers := some appHeaders,
               body := .itemObj (replacementProduct (some penPayloadWithId) storedPen) },
         putStore (replacementProduct (some penPayloadWithId) storedPen) [storedPen])
    ∧ (replacementProduct (some penPayloadWithId) storedPen).productID = storedPen.productID :=
  ⟨rfl, by decide,
   (updateProduct_preserves_productID
     { pathParamId := some "p1", body := .parsable penPayloadWithId } [storedPen]
     "p1" storedPen rfl (by decide)).1,
   (updateProduct_preserves_productID
     { pathParamId := some "p1", body := .parsable penPayloadWithId } [storedPen]
     "p1" storedPen rfl (by decide)).2.1⟩

/-- C6: for every create request whose payload parses but fails schema
validation, the handler responds 400 with `{errors: [...]}` carrying the
full aggregated list `validationErrors p` — by definition one entry per
missing/invalid field of the four required ones, in declaration order,
not only the first — and the store is untouched. -/
theorem createProduct_invalid_reports_all_errors
    (gen : String) (ev : Event) (store : Store) (p : Payload)
    (hparse : jsonParse ev.body = .ok p)
    (hinvalid : validationErrors p ≠ []) :
    createProduct gen ev store =
      (.ok { statusCode := 400, headers := some appHeaders,
             body := .errsObj (validationErrors p) },
       store) := by
  simp [createProduct, hparse, hinvalid, handleError]

/-- C6 witness: creating from the empty payload reports all four
required-field errors together. -/
theorem createProduct_invalid_witness :
    validationErrors ({} : Payload) =
      ["name is a required field", "description is a required field",
       "price is a required field", "available is a required field"]
    ∧ createProduct "G" { pathParamId := none, body := .parsable ({} : Payload) } [] =
        (.ok { statusCode := 400, headers := some appHeaders,
               body := .errsObj (validationErrors ({} : Payload)) },
         []) :=
  ⟨by decide, createProduct_invalid_reports_all_errors "G" _ [] {} rfl (by decide)⟩

/-- C7: for every valid, parseable payload carrying no `productID` of its
own, create responds 201 with the record built from the payload plus the
generated id, and a subsequent read of that id over the resulting store
responds 200 with the very same record, whose four content fields equal
the payload's. -/
theorem create_then_get_roundtrip
    (gen : String) (store : Store) (p : Payload) (ev1 ev2 : Event)
    (hparse : jsonParse ev1.body = .ok p)
    (hvalid : validationErrors p = [])
    (hnoid : p.productID = none)
    (hid2 : ev2.pathParamId = some gen) :
    createProduct gen ev1 store =
      (.ok { statusCode := 201, headers := some appHeaders,
             body := .itemObj (createdProduct gen p) },
       putStore (createdProduct gen p) store)
    ∧ getProduct ev2 (putStore (createdProduct gen p) store) =
      (.ok { statusCode := 200, headers := some appHeaders,
             body := .itemObj (createdProduct gen p) },
       putStore (createdProduct gen p) store)
    ∧ (createdProduct gen p).productID = .str gen
    ∧ (createdProduct gen p).name = p.name
    ∧ (createdProduct gen p).description = p.description
    ∧ (createdProduct gen p).price = p.price
    ∧ (createdProduct gen p).available = p.available := by
  have hpid : (createdProduct gen p).productID = .str gen := by
    simp [createdProduct, hnoid]
  refine ⟨?_, ?_, hpid, rfl, rfl, rfl, rfl⟩
  · simp [createProduct, hparse, hvalid]
  · simp [getProduct, fetchProductById, hid2, lookupStore, putStore, List.find?, hpid]

/-- C7 witness: creating the sample payload under generated id
`"uuid-1"` and then reading `"uuid-1"` returns the stored record with
200. -/
theorem create_then_get_roundtrip_witness :
    createProduct "uuid-1" { pathParamId := none, body := .parsable penPayload } [] =
      (.ok { statusCode := 201, headers := some appHeaders,
             body := .itemObj (createdProduct "uuid-1" penPayload) },
       putStore (createdProduct "uuid-1" penPayload) [])
    ∧ getProduct { pathParamId := some "uuid-1", body := .malformed "x" }
        (putStore (createdProduct "uuid-1" penPayload) []) =
      (.ok { statusCode := 200, headers := some appHeaders,
             body := .itemObj (createdProduct "uuid-1" penPayload) },
       putStore (createdProduct "uuid-1" penPayload) []) :=
  ⟨(create_then_get_roundtrip "uuid-1" [] penPayload
      { pathParamId := none, body := .parsable penPayload }
      { pathParamId := some "uuid-1", body := .malformed "x" }
      rfl (by decide) rfl rfl).1,
   (create_then_get_roundtrip "uuid-1" [] penPayload
      { pathParamId := none, body := .parsable penPayload }
      { pathParamId := some "uuid-1", body := .malformed "x" }
      rfl (by decide) rfl rfl).2.1⟩

/-- C8 counterexample: the source's `SyntaxError` branch interpolates the
parse message into the misspelled template
`Invalid request body fomrat: "<detail>"` — with `fomrat` for `format`
and the detail wrapped in double quotes — so the body differs from the
claimed `{error: "Invalid request body format: <detail>"}` under either
reading of `<detail>`. -/
theorem createProduct_malformed_message_counterexample :
    createProduct "G" { pathParamId := none, body := .malformed "Unexpected token o" } [] =
      (.ok { statusCode := 400, headers := some appHeaders,
             body := .errObj "Invalid request body fomrat: \"Unexpected token o\"" },
       [])
    ∧ "Invalid request body fomrat: \"Unexpected token o\""
        ≠ "Invalid request body format: Unexpected token o"
    ∧ "Invalid request body fomrat: \"Unexpected token o\""
        ≠ "Invalid request body format: \"Unexpected token o\"" :=
  ⟨rfl, by decide, by decide⟩

/-- C8 (amended): for every create request whose body is not parseable
as JSON, the handler returns 400 with body
`{error: "Invalid request body fomrat: \"<detail>\""}` — the source's
misspelled template with the parse error's message in quotes — and
nothing is persisted. -/
theorem createProduct_malformed_body_amended
    (gen : String) (ev : Event) (store : Store) (msg : String)
    (hmal : ev.body = .malformed msg) :
    createProduct gen ev store =
      (.ok { statusCode := 400, headers := some appHeaders,
             body := .errObj ("Invalid request body fomrat: \"" ++ msg ++ "\"") },
       store) := by
  simp [createProduct, jsonParse, hmal, handleError]

/-- C8 witness: an unparseable body with message `"Unexpected end of
JSON input"` gets the 400 response and leaves the store as it was. -/
theorem createProduct_malformed_body_witness :
    createProduct "G" { pathParamId := none, body := .malformed "Unexpected end of JSON input" }
        [storedPen] =
      (.ok { statusCode := 400, headers := some appHeaders,
             body := .errObj ("Invalid request body fomrat: \"" ++ "Unexpected end of JSON input" ++ "\"") },
       [storedPen]) :=
  createProduct_malformed_body_amended "G"
    { pathParamId := none, body := .malformed "Unexpected end of JSON input" }
    [storedPen] "Unexpected end of JSON input" rfl

/-- C10 counterexample: the delete handler's final result object is built
without a `headers` property, so the response it returns for an existing
id (here `"p1"`) carries no `content-type: application/json` header. -/
theorem deleteProduct_response_lacks_headers :
    (deleteProduct { pathParamId := some "p1", body := .malformed "x" } [storedPen]).1 =
      .ok { statusCode := 204, headers := none, body := .deleteObj (some storedPen) }
    ∧ (none : Option (List (String × String))) ≠ some appHeaders :=
  ⟨rfl, by decide⟩

/-- C10 (amended): every response returned by the create, read, update
and list handlers carries the headers
`{"content-type": "application/json"}`; the delete handler always
returns a response without any headers field.  (The update handler
either returns a response with those headers or throws without returning
one.) -/
theorem handlers_headers_amended (gen : String) (ev : Event) (store : Store) :
    okHeaders (createProduct gen ev store) = some (some appHeaders)
    ∧ okHeaders (getProduct ev store) = some (some appHeaders)
    ∧ (okHeaders (updateProduct ev store) = some (some appHeaders)
        ∨ okHeaders (updateProduct ev store) = none)
    ∧ okHeaders (listProduct ev store) = some (some appHeaders)
    ∧ okHeaders (deleteProduct ev store) = some none := by
  refine ⟨?_, ?_, ?_, rfl, ?_⟩
  · cases hb : ev.body with
    | parsable p =>
        by_cases hv : validationErrors p = [] <;>
          simp [createProduct, jsonParse, hb, hv, handleError, okHeaders]
    | malformed m => simp [createProduct, jsonParse, hb, handleError, okHeaders]
  · cases hf : fetchProductById store ev.pathParamId <;> simp [getProduct, hf, okHeaders]
  · cases hf : fetchProductById store ev.pathParamId with
    | error e => right; simp [updateProduct, hf, okHeaders]
    | ok it => left; simp [updateProduct, hf, okHeaders]
  · cases hf : fetchProductById store ev.pathParamId <;> simp [deleteProduct, hf, okHeaders]
